import Mathlib

/-!
# GENMIX Task Execution Engine — verification development

Shallow embedding of the queue scheduler (`useTaskQueue.processQueue` /
`runAll` / `runSingle` / `stop`), the page-side execution orchestrator
(the `EXECUTE_PROMPT` handler of the content script), the sidepanel
`executeTask` outcome handling, the adapters' `waitForCompletion`
polling loops, and the media cache (`cacheMediaUrls`).

Machine integers are modelled as `Nat` (all the quantities involved are
non-negative millisecond counts, list lengths, and tick indices).
Asynchronous effects are modelled by explicit event traces; the
environment (outcomes of `executeTask`, random draws, stop requests,
page state at each poll tick) is an explicit oracle parameter.
-/

namespace Genmix

/-! ## Data model (src/types/task.ts, latest snapshot) -/

inductive TaskStatus where
  | pending
  | in_progress
  | completed
  | failed
  deriving DecidableEq, Repr

inductive TaskResultType where
  | text
  | image
  | video
  | mixed
  deriving DecidableEq, Repr

/-- Record `TaskResult`; `cachedMediaIds` is the optional field written
back by the media-cache step of the sidepanel `executeTask`. -/
structure TaskResult where
  id : String
  content : String
  createdAt : Nat
  cachedMediaIds : Option (List String) := none
  deriving DecidableEq, Repr

structure Task where
  id : String
  title : String
  prompt : String
  resultType : TaskResultType
  status : TaskStatus
  results : List TaskResult
  referenceImageIds : List String
  deriving DecidableEq, Repr

/-! ## Queue scheduler (useTaskQueue, src/unnamed/part_002 lines 181-313)

`executeTask` returns `{ success, retryAfterRedirect? }`. -/

structure ExecResult where
  success : Bool
  retryAfterRedirect : Bool := false
  deriving DecidableEq, Repr

/-- Model of `randomDelay` (part_002 lines 211-215):
`ms = Math.floor(Math.random() * 3000) + 1000`.
`Math.random()` yields a real in `[0, 1)`, so `floor(random * 3000)` is an
integer in `{0, …, 2999}`; we take that integer draw (reduced mod 3000 to
make the function total in the draw) as the oracle input. -/
def randomDelayMs (draw : Nat) : Nat :=
  draw % 3000 + 1000

/-- Oracle environment for one `processQueue` run.  `exec i id` is the
result of the `i`-th `await executeTask({taskId: id})`; `autoNext` /
`retryOnFail` are the values of the toggle refs when read in iteration
`i`; `rand i` is the random draw of the delay awaited in iteration `i`;
`stopTime` is the checkpoint index (see `stopped`) at which `stop()` has
set `stoppedRef.current` (none = never). -/
structure QueueEnv where
  exec : Nat → String → ExecResult
  autoNext : Nat → Bool
  retryOnFail : Nat → Bool
  rand : Nat → Nat
  stopTime : Option Nat

/-- Value of `stoppedRef.current` as observed at checkpoint `c`.  Iteration `i`
checks the flag at checkpoint `2*i` (loop head) and `2*i + 1` (right
after `executeTask` returns); the flag is monotone once set. -/
def stopped (env : QueueEnv) (c : Nat) : Bool :=
  match env.stopTime with
  | none => false
  | some t => t ≤ c

/-- Observable events of one `processQueue` run. -/
inductive QEv where
  /-- the `i`-th `await executeTask({ taskId: id })` -/
  | invoke (i : Nat) (id : String)
  /-- the 3000 ms `setTimeout` wait of the redirect branch -/
  | redirectWait (ms : Nat)
  /-- the awaited `randomDelay()` of the retry-on-failure branch -/
  | retryDelay (ms : Nat)
  /-- the awaited `randomDelay()` before the next task -/
  | interDelay (ms : Nat)
  deriving DecidableEq, Repr

/-- The `while (remaining.length > 0)` loop of `processQueue`
(part_002 lines 238-275), as a fuel-indexed step function.  Returns the
event trace and whether the loop exited (`true`) or the fuel ran out
while the loop was still going (`false`).  `i` counts loop iterations. -/
def runLoop (env : QueueEnv) : Nat → Nat → List String → List QEv × Bool
  | _, _, [] => ([], true)
  | 0, _, _ :: _ => ([], false)
  | fuel + 1, i, currentId :: rest =>
    if stopped env (2 * i) then ([], true)
    else
      -- const { success, retryAfterRedirect } = await executeTask(...)
      let r := env.exec i currentId
      let ev := QEv.invoke i currentId
      if stopped env (2 * i + 1) then ([ev], true)
      else if r.retryAfterRedirect then
        -- wait 3000 ms, `continue` without slicing `remaining`
        let t := runLoop env fuel (i + 1) (currentId :: rest)
        (ev :: QEv.redirectWait 3000 :: t.1, t.2)
      else if !r.success && env.retryOnFail i then
        -- remaining = [currentId, ...remaining.slice(1)], randomDelay, continue
        let t := runLoop env fuel (i + 1) (currentId :: rest)
        (ev :: QEv.retryDelay (randomDelayMs (env.rand i)) :: t.1, t.2)
      else if !r.success && !env.autoNext i then ([ev], true)
      else if r.success && !env.autoNext i then ([ev], true)
      else
        match rest with
        | [] => ([ev], true)
        | next :: rest' =>
          let t := runLoop env fuel (i + 1) (next :: rest')
          (ev :: QEv.interDelay (randomDelayMs (env.rand i)) :: t.1, t.2)

/-- Task ids passed to `executeTask`, in invocation order. -/
def invokedIds (evs : List QEv) : List String :=
  evs.filterMap fun ev =>
    match ev with
    | QEv.invoke _ id => some id
    | _ => none

/-- Observable state the hook exposes after `processQueue` finishes:
lines 277-279 unconditionally run `setIsRunning(false)`,
`setExecutingId(null)`, `setQueuedIds([])` after the loop. -/
structure QueueFinal where
  isRunning : Bool
  executingId : Option String
  queuedIds : List String
  events : List QEv
  deriving DecidableEq, Repr

/-- Model of `processQueue(queue)`: run the loop; when the loop exits within the
given fuel, the run ends with the unconditional final state updates. -/
def processQueue (env : QueueEnv) (queue : List String) (fuel : Nat) :
    Option QueueFinal :=
  let t := runLoop env fuel 0 queue
  if t.2 then some ⟨false, none, [], t.1⟩ else none

/-- Model of `runAll(taskIds)` (part_002 lines 282-287): no-op when a run is
already in progress or the id list is empty. -/
def runAll (env : QueueEnv) (isRunning : Bool) (taskIds : List String)
    (fuel : Nat) : Option QueueFinal :=
  if isRunning then none
  else if taskIds.isEmpty then none
  else processQueue env taskIds fuel

/-- Model of `runSingle(taskId)` (part_002 lines 288-291). -/
def runSingle (env : QueueEnv) (isRunning : Bool) (taskId : String)
    (fuel : Nat) : Option QueueFinal :=
  if isRunning then none
  else processQueue env [taskId] fuel

/-- Synchronous actions of `stop()` (part_002 lines 293-299), in order:
set `stoppedRef.current`, clear `queuedIds`, then `onStop?.()`, which in
the sidepanel (`handleStop`, App.tsx lines 506-510) sends a
`CANCEL_EXECUTION` message to the target tab when there is one. -/
inductive StopAction where
  | setStoppedFlag
  | clearQueuedIds
  | sendCancelMessage
  deriving DecidableEq, Repr

def stopActions (hasTab : Bool) : List StopAction :=
  [StopAction.setStoppedFlag, StopAction.clearQueuedIds] ++
    (if hasTab then [StopAction.sendCancelMessage] else [])

/-! ## Page-side execution orchestrator
(content script, src/src/content/index.ts lines 14-100) -/

/-- Result of `validateState(task)` (adapter interface, part_001). -/
structure ValState where
  valid : Bool
  redirectUrl : Option String := none
  error : Option String := none
  deriving DecidableEq, Repr

/-- Response shape sent back by the `EXECUTE_PROMPT` handler:
`{ success, result?, redirectUrl?, error? }`. -/
structure ExecResponse where
  success : Bool
  result : Option String := none
  redirectUrl : Option String := none
  error : Option String := none
  deriving DecidableEq, Repr

/-- One adapter's behaviour for a single `EXECUTE_PROMPT` round-trip:
for each optional capability, `none` means the adapter does not provide
it; `Except.error e` models the step throwing with message `e`. -/
structure AdapterB where
  validateState : Option (Except String ValState)
  clearEditor : Option (Except String Unit)
  fillImages : Option (Except String Unit)
  fillPrompt : Except String Unit
  clickSend : Except String Unit
  waitForCompletion : Except String Unit
  getLatestResult : Except String (Option String)

/-- Step-level trace of the handler. -/
inductive Step where
  | validateState
  | clearEditor
  | fillImages
  | fillPrompt
  | clickSend
  | settleDelay (ms : Nat)
  | waitForCompletion
  | getLatestResult (expectedType : Option TaskResultType)
  deriving DecidableEq, Repr

/-- Reply `sendResponse(\x7b success: false, error: err.message \x7d)` of the
handler's catch block. -/
def failureResp (e : String) : ExecResponse :=
  { success := false, error := some e }

/-- A gated sequence of steps, each possibly throwing: returns the steps
actually run (in order) and the message of the first throw, if any. -/
def seqSteps : List (Step × Bool × Except String Unit) →
    List Step × Option String
  | [] => ([], none)
  | (s, enabled, r) :: rest =>
    if enabled then
      match r with
      | Except.error e => ([s], some e)
      | Except.ok _ =>
        let t := seqSteps rest
        (s :: t.1, t.2)
    else seqSteps rest

/-- Steps 0-7 of the handler (clearEditor … getLatestResult), i.e.
everything after the pre-flight validation (index.ts lines 37-74). -/
def handleAfterValidate (a : AdapterB) (images : List String)
    (task? : Option Task) : List Step × ExecResponse :=
  let pre := seqSteps
    [(Step.clearEditor, a.clearEditor.isSome, a.clearEditor.getD (Except.ok ())),
     (Step.fillImages, !images.isEmpty && a.fillImages.isSome,
       a.fillImages.getD (Except.ok ())),
     (Step.fillPrompt, true, a.fillPrompt),
     (Step.clickSend, true, a.clickSend),
     (Step.settleDelay 2000, true, Except.ok ()),
     (Step.waitForCompletion, true, a.waitForCompletion)]
  match pre.2 with
  | some e => (pre.1, failureResp e)
  | none =>
    let capture := Step.getLatestResult (task?.map (·.resultType))
    match a.getLatestResult with
    | Except.error e => (pre.1 ++ [capture], failureResp e)
    | Except.ok r => (pre.1 ++ [capture], { success := true, result := r })

/-- The `EXECUTE_PROMPT` handler (index.ts lines 20-77): pre-flight
validation when `adapter.validateState` exists and `message.task` was
supplied, then the fixed step sequence; any throw is caught and turned
into `{ success: false, error }`. -/
def handleExecute (a : AdapterB) (images : List String)
    (task? : Option Task) : List Step × ExecResponse :=
  match a.validateState, task? with
  | some vr, some _ =>
    match vr with
    | Except.error e => ([Step.validateState], failureResp e)
    | Except.ok s =>
      if s.valid then
        let t := handleAfterValidate a images task?
        (Step.validateState :: t.1, t.2)
      else
        match s.redirectUrl with
        | some u =>
          ([Step.validateState],
           { success := false, redirectUrl := some u, error := s.error })
        | none =>
          ([Step.validateState],
           failureResp (s.error.getD "Invalid page state for this task"))
  | _, _ => handleAfterValidate a images task?

/-! ### Message dispatch of the content-script listener
(index.ts lines 17-97).  The listener has branches only for
`EXECUTE_PROMPT` (with a truthy payload), `PING`, and `FILL_PROMPT`
(with a truthy payload); any other message type falls through with no
action taken. -/

inductive MessageType where
  | executePrompt
  | ping
  | fillPrompt
  | cancelExecution
  | other
  deriving DecidableEq, Repr

inductive HandlerKind where
  | execute
  | ping
  | fill
  deriving DecidableEq, Repr

def listenerDispatch (mt : MessageType) (hasPayload : Bool) :
    Option HandlerKind :=
  if mt = MessageType.executePrompt ∧ hasPayload then some HandlerKind.execute
  else if mt = MessageType.ping then some HandlerKind.ping
  else if mt = MessageType.fillPrompt ∧ hasPayload then some HandlerKind.fill
  else none

/-! ## Adapter `waitForCompletion` polling loops

Each loop polls the page on a fixed interval; `busy n` is whether the
page's generation-in-progress condition still holds at the `n`-th poll
tick (for ChatGPT: stop button / shimmer / "Creating image" / loading
container; for Jimeng: newest item missing, still loading, or no
completed image yet; for Gemini: stop button / processing state /
spinner present, or no `model-response` yet).

* ChatGPT (adapters/types.ts lines 62-95): 1000 ms interval, resolved by
  a 120 000 ms safety timeout — 120 ticks.
* Jimeng (adapters/jimeng.ts lines 136-173): 2000 ms interval, resolved
  by a 180 000 ms safety timeout — 90 ticks.
* Gemini (adapters/gemini.ts lines 80-114): 1000 ms interval and **no**
  safety timeout; the optional `AbortSignal` parameter is never supplied
  by the content-script handler, so the only exit is the page's
  indicators clearing.
-/

/-- Generic polling loop: starting at tick `n`, resolve at the first
tick where the deadline has elapsed or the page is no longer busy;
`none` while neither happens within `fuel` ticks. -/
def pollLoop (busy : Nat → Bool) (deadline : Option Nat) :
    Nat → Nat → Option Nat
  | 0, _ => none
  | fuel + 1, n =>
    if (match deadline with | some d => decide (d ≤ n) | none => false) then
      some n
    else if !busy n then some n
    else pollLoop busy deadline fuel (n + 1)

/-- ChatGPT `waitForCompletion`: tick at which it resolves. -/
def chatgptWaitTick (busy : Nat → Bool) (fuel : Nat) : Option Nat :=
  pollLoop busy (some 120) fuel 0

/-- Jimeng `waitForCompletion`: tick at which it resolves. -/
def jimengWaitTick (busy : Nat → Bool) (fuel : Nat) : Option Nat :=
  pollLoop busy (some 90) fuel 0

/-- Gemini `waitForCompletion` (no cancel signal supplied): tick at
which it resolves. -/
def geminiWaitTick (busy : Nat → Bool) (fuel : Nat) : Option Nat :=
  pollLoop busy none fuel 0

/-! ## Media cache (src/storage/mediaStore.ts, src/unnamed/part_014) -/

inductive MediaType where
  | image
  | video
  deriving DecidableEq, Repr

/-- Model of `url.startsWith(prefixStr)`: character-level prefix test (the
embedding uses the character list of the strings so that it computes by
structural recursion). -/
def strStartsWith (s pre : String) : Bool :=
  pre.data.isPrefixOf s.data

/-- Model of `cacheMediaUrls(urls)` (part_014 lines 109-131): skip `data:` URLs,
fetch each remaining URL; a failed fetch (`fetchOk url = none`) is
skipped without failing the whole operation; each success stores a blob
under a fresh media id and contributes a `{ url, mediaId }` pair. -/
def cacheMediaUrls (fetchOk : String → Option String) :
    List (String × MediaType) → List (String × String)
  | [] => []
  | (url, _) :: rest =>
    if strStartsWith url "data:" then cacheMediaUrls fetchOk rest
    else
      match fetchOk url with
      | some mediaId => (url, mediaId) :: cacheMediaUrls fetchOk rest
      | none => cacheMediaUrls fetchOk rest

/-! ## Sidepanel `executeTask` (src/src/pages/sidepanel/App.tsx
lines 396-504, latest snapshot) -/

/-- Shape of the parsed `response.result` JSON, as far as the media
caching block reads it (`parsed.type`, `parsed.allImageUrls`,
`parsed.imageUrl`, `parsed.videoUrl`); `unparsable` stands for a
`JSON.parse` throw or any shape with a different / missing `type`. -/
inductive ResultPayload where
  | image (imageUrl : Option String) (allImageUrls : List String)
  | video (videoUrl : Option String)
  | unparsable
  deriving DecidableEq, Repr

/-- The media URL list the caching block builds from the parsed result
(App.tsx lines 452-460). -/
def mediaUrlsOf : ResultPayload → List (String × MediaType)
  | ResultPayload.image imageUrl allImageUrls =>
    (if allImageUrls.isEmpty then
        (match imageUrl with | some u => [u] | none => [])
      else allImageUrls).map (fun u => (u, MediaType.image))
  | ResultPayload.video (some u) => [(u, MediaType.video)]
  | ResultPayload.video none => []
  | ResultPayload.unparsable => []

/-- A partial `updateTask(id, fields)` call: only the fields the
execution path ever writes. -/
structure TaskUpdate where
  status : Option TaskStatus := none
  results : Option (List TaskResult) := none
  deriving DecidableEq, Repr

/-- Awaited effects of one `executeTask` call, in program order. -/
inductive ExecEv where
  | updateTask (u : TaskUpdate)
  /-- Message send `chrome.tabs.sendMessage(tabId, ...)` of type EXECUTE_PROMPT -/
  | sendExecuteMessage
  /-- tab navigation `chrome.tabs.update` of the redirect branch -/
  | navigate (url : String)
  /-- the awaited `cacheMediaUrls(mediaUrls)` call -/
  | cacheFetch (urls : List (String × MediaType))
  /-- the function returns `r` -/
  | ret (r : ExecResult)
  deriving DecidableEq, Repr

/-- Environment of one `executeTask` call: outcome of resolving the
reference images, outcome of the channel round-trip (`Except.error` =
`sendMessage` threw, e.g. "Could not establish connection";
`Except.ok none` = a falsy response), the media-fetch oracle, the JSON
parse oracle, and the clock (`Date.now()`). -/
structure ExecEnv where
  imageLoad : Except String Unit
  channel : Except String (Option ExecResponse)
  fetchOk : String → Option String
  parse : String → ResultPayload
  now : Nat

/-- The catch block (App.tsx lines 493-503): mark the task `failed`,
return `{ success: false }`.  No result is ever appended here. -/
def execCatch (evs : List ExecEv) : List ExecEv × ExecResult :=
  (evs ++ [ExecEv.updateTask { status := some TaskStatus.failed },
           ExecEv.ret { success := false }],
   { success := false })

/-- Model of `executeTask(\x7b taskId, fillOnly \x7d)`, given that the task lookup
found `task`.  Returns the awaited-effect trace (ending with the
`ret` event) and the value returned to the queue loop. -/
def executeTask (env : ExecEnv) (hasTab : Bool) (task? : Option Task)
    (fillOnly : Bool) : List ExecEv × ExecResult :=
  if !hasTab then ([ExecEv.ret { success := false }], { success := false })
  else
    match task? with
    | none => ([ExecEv.ret { success := false }], { success := false })
    | some task =>
      let evs0 := [ExecEv.updateTask { status := some TaskStatus.in_progress }]
      match env.imageLoad with
      | Except.error _ => execCatch evs0
      | Except.ok _ =>
        let evs1 := evs0 ++ [ExecEv.sendExecuteMessage]
        match env.channel with
        | Except.error _ => execCatch evs1
        | Except.ok none => execCatch evs1
        | Except.ok (some resp) =>
          if resp.success then
            if fillOnly then
              (evs1 ++ [ExecEv.updateTask { status := some TaskStatus.pending },
                        ExecEv.ret { success := true }],
               { success := true })
            else
              let newResult : TaskResult :=
                { id := toString env.now, content := resp.result.getD "",
                  createdAt := env.now }
              let currentResults := task.results
              let evs2 := evs1 ++
                [ExecEv.updateTask
                  { results := some (currentResults ++ [newResult]),
                    status := some TaskStatus.completed }]
              -- media caching block (try / catch, non-fatal)
              let parsed := env.parse (resp.result.getD "\x7b\x7d")
              let mediaUrls := mediaUrlsOf parsed
              let evs3 :=
                if mediaUrls.isEmpty then evs2
                else
                  let cached := cacheMediaUrls env.fetchOk mediaUrls
                  let evs := evs2 ++ [ExecEv.cacheFetch mediaUrls]
                  if cached.isEmpty then evs
                  else
                    evs ++ [ExecEv.updateTask
                      { results := some (currentResults ++
                          [{ newResult with
                              cachedMediaIds := some (cached.map (·.2)) }]) }]
              (evs3 ++ [ExecEv.ret { success := true }], { success := true })
          else
            match resp.redirectUrl with
            | some u =>
              (evs1 ++ [ExecEv.navigate u,
                        ExecEv.updateTask { status := some TaskStatus.pending },
                        ExecEv.ret { success := false,
                                     retryAfterRedirect := true }],
               { success := false, retryAfterRedirect := true })
            | none => execCatch evs1

/-- Last status written by a trace (the task's status after the call). -/
def finalStatus (evs : List ExecEv) : Option TaskStatus :=
  (evs.filterMap fun ev =>
    match ev with
    | ExecEv.updateTask u => u.status
    | _ => none).getLast?

/-- Last `results` list written by a trace. -/
def finalResults (evs : List ExecEv) : Option (List TaskResult) :=
  (evs.filterMap fun ev =>
    match ev with
    | ExecEv.updateTask u => u.results
    | _ => none).getLast?

/-- Whether the trace contains any `updateTask` writing `results`. -/
def writesResults (evs : List ExecEv) : Bool :=
  evs.any fun ev =>
    match ev with
    | ExecEv.updateTask u => u.results.isSome
    | _ => false

/-! ## Concrete sample values used by witnesses -/

def sampleTask : Task :=
  { id := "t1", title := "t", prompt := "p",
    resultType := TaskResultType.image, status := TaskStatus.pending,
    results := [], referenceImageIds := [] }

def jimengImageUrl : String :=
  "https://jimeng.jianying.com/ai-tool/generate?type=image"

def redirectResp : ExecResponse :=
  { success := false, redirectUrl := some jimengImageUrl }

def redirectExecEnv : ExecEnv :=
  { imageLoad := Except.ok (), channel := Except.ok (some redirectResp),
    fetchOk := fun _ => none, parse := fun _ => ResultPayload.unparsable,
    now := 0 }

def redirectQueueEnv : QueueEnv :=
  { exec := fun _ _ => { success := false, retryAfterRedirect := true },
    autoNext := fun _ => true, retryOnFail := fun _ => false,
    rand := fun _ => 0, stopTime := none }

/-- A concrete adapter offering every capability, every step
succeeding, capturing the payload `"res"`. -/
def fullAdapter : AdapterB :=
  { validateState := some (Except.ok { valid := true }),
    clearEditor := some (Except.ok ()),
    fillImages := some (Except.ok ()),
    fillPrompt := Except.ok (),
    clickSend := Except.ok (),
    waitForCompletion := Except.ok (),
    getLatestResult := Except.ok (some "res") }

def successResp : ExecResponse := { success := true, result := some "out" }

def successExecEnv : ExecEnv :=
  { imageLoad := Except.ok (), channel := Except.ok (some successResp),
    fetchOk := fun _ => none, parse := fun _ => ResultPayload.unparsable,
    now := 5 }

def connErrorEnv : ExecEnv :=
  { imageLoad := Except.ok (),
    channel := Except.error "Could not establish connection",
    fetchOk := fun _ => none, parse := fun _ => ResultPayload.unparsable,
    now := 5 }

def failResp : ExecResponse := { success := false, error := some "boom" }

def failRespEnv : ExecEnv :=
  { imageLoad := Except.ok (), channel := Except.ok (some failResp),
    fetchOk := fun _ => none, parse := fun _ => ResultPayload.unparsable,
    now := 5 }

def cacheTestParse : String → ResultPayload := fun s =>
  if s = "res-json" then
    ResultPayload.image (some "https://x/a.png")
      ["https://x/a.png", "https://x/b.png"]
  else ResultPayload.unparsable

def cacheTestFetch : String → Option String := fun u =>
  if u = "https://x/a.png" then some "m1" else none

def cacheTestEnv : ExecEnv :=
  { imageLoad := Except.ok (),
    channel := Except.ok (some { success := true, result := some "res-json" }),
    fetchOk := cacheTestFetch, parse := cacheTestParse, now := 7 }

def nullAdapter : AdapterB :=
  { fullAdapter with getLatestResult := Except.ok none }

def nullRespEnv : ExecEnv :=
  { imageLoad := Except.ok (),
    channel := Except.ok (some { success := true }),
    fetchOk := fun _ => none, parse := fun _ => ResultPayload.unparsable,
    now := 9 }

/-! ## Helper lemmas about the queue loop -/

theorem stopped_none {env : QueueEnv} (h : env.stopTime = none) (c : Nat) :
    stopped env c = false := by
  simp [stopped, h]

theorem invokedIds_nil : invokedIds [] = [] := rfl

theorem invokedIds_invoke (i : Nat) (id : String) (l : List QEv) :
    invokedIds (QEv.invoke i id :: l) = id :: invokedIds l := by
  simp [invokedIds]

theorem invokedIds_redirectWait (ms : Nat) (l : List QEv) :
    invokedIds (QEv.redirectWait ms :: l) = invokedIds l := by
  simp [invokedIds]

theorem invokedIds_retryDelay (ms : Nat) (l : List QEv) :
    invokedIds (QEv.retryDelay ms :: l) = invokedIds l := by
  simp [invokedIds]

theorem invokedIds_interDelay (ms : Nat) (l : List QEv) :
    invokedIds (QEv.interDelay ms :: l) = invokedIds l := by
  simp [invokedIds]

/-- When every `executeTask` call succeeds, no stop is requested and
auto-next is on, the loop walks the whole queue in order and exits. -/
theorem runLoop_allSuccess (env : QueueEnv)
    (hexec : ∀ i id, env.exec i id = { success := true, retryAfterRedirect := false })
    (hauto : ∀ i, env.autoNext i = true)
    (hstop : env.stopTime = none) :
    ∀ (q : List String) (i fuel : Nat), q.length ≤ fuel →
      invokedIds (runLoop env fuel i q).1 = q ∧ (runLoop env fuel i q).2 = true := by
  intro q
  induction q with
  | nil =>
    intro i fuel _
    constructor <;> simp [runLoop, invokedIds]
  | cons c rest ih =>
    intro i fuel hf
    cases fuel with
    | zero => simp at hf
    | succ f =>
      have hf' : rest.length ≤ f := by simpa using hf
      cases rest with
      | nil =>
        simp [runLoop, stopped_none hstop, hexec i c, hauto i, invokedIds]
      | cons n r' =>
        have hrec := ih (i + 1) f hf'
        simp only [runLoop, stopped_none hstop, hexec i c, hauto i,
          Bool.false_eq_true, if_false, Bool.not_true, Bool.false_and,
          Bool.true_and, Bool.and_self, if_true, Bool.and_false]
        constructor
        · rw [invokedIds_invoke, invokedIds_interDelay, hrec.1]
        · exact hrec.2

/-- C1: for every non-empty list `Q` of task identifiers and an
`executeTask` stub that always returns success, `runAll(Q)` with
auto-next enabled invokes `executeTask` exactly once per identifier, in
`Q`'s original order, and when the loop ends `isRunning` is false,
`executingId` is null and `queuedIds` is empty. -/
theorem runAll_allSuccess_once_per_id (env : QueueEnv) (Q : List String)
    (hne : Q ≠ [])
    (hexec : ∀ i id, env.exec i id = { success := true, retryAfterRedirect := false })
    (hauto : ∀ i, env.autoNext i = true)
    (hstop : env.stopTime = none) :
    ∃ final : QueueFinal,
      runAll env false Q Q.length = some final ∧
      invokedIds final.events = Q ∧
      final.isRunning = false ∧
      final.executingId = none ∧
      final.queuedIds = [] := by
  have h := runLoop_allSuccess env hexec hauto hstop Q 0 Q.length le_rfl
  refine ⟨⟨false, none, [], (runLoop env Q.length 0 Q).1⟩, ?_, h.1, rfl, rfl, rfl⟩
  simp [runAll, processQueue, hne, h.2]

/-- Witness for C1 at `Q = ["a", "b", "c"]` with an always-success
stub. -/
theorem runAll_allSuccess_once_per_id_witness :
    ∃ final : QueueFinal,
      runAll ⟨fun _ _ => { success := true, retryAfterRedirect := false },
              fun _ => true, fun _ => false, fun _ => 0, none⟩
          false ["a", "b", "c"] (["a", "b", "c"] : List String).length
        = some final ∧
      invokedIds final.events = ["a", "b", "c"] ∧
      final.isRunning = false ∧
      final.executingId = none ∧
      final.queuedIds = [] :=
  runAll_allSuccess_once_per_id
    ⟨fun _ _ => { success := true, retryAfterRedirect := false },
     fun _ => true, fun _ => false, fun _ => 0, none⟩
    ["a", "b", "c"] (by decide) (fun _ _ => rfl) (fun _ => rfl) rfl

/-- C5: if `stop()` is called while the head task `T` is executing (the
flag was clear at the loop-head check and set by the post-execution
check), then `T`'s in-flight call finishes, no later task is ever
started, and the run ends: the remaining trace is exactly the one
invocation of `T` and the loop exits. -/
theorem stop_during_execution_no_further_tasks (env : QueueEnv)
    (i fuel s : Nat) (T : String) (rest : List String)
    (hstop : env.stopTime = some s)
    (hpre : ¬ s ≤ 2 * i)
    (hpost : s ≤ 2 * i + 1) :
    runLoop env (fuel + 1) i (T :: rest) = ([QEv.invoke i T], true) := by
  simp [runLoop, stopped, hstop, hpre, hpost]

/-- Witness for C5: stop is requested during the very first task's
execution; the second task is never started. -/
theorem stop_during_execution_no_further_tasks_witness :
    runLoop ⟨fun _ _ => { success := true, retryAfterRedirect := false },
             fun _ => true, fun _ => false, fun _ => 0, some 1⟩
        (5 + 1) 0 ["a", "b"] = ([QEv.invoke 0 "a"], true) :=
  stop_during_execution_no_further_tasks
    ⟨fun _ _ => { success := true, retryAfterRedirect := false },
     fun _ => true, fun _ => false, fun _ => 0, some 1⟩
    0 5 1 "a" ["b"] rfl (by decide) (by decide)

/-- When every attempt at the head task returns the redirect outcome
and stop is never requested, the loop only ever re-invokes that task
and never exits. -/
theorem runLoop_redirect_forever (env : QueueEnv) (T : String)
    (hstop : env.stopTime = none)
    (hexec : ∀ j, env.exec j T = { success := false, retryAfterRedirect := true }) :
    ∀ (fuel i : Nat) (rest : List String),
      invokedIds (runLoop env fuel i (T :: rest)).1 = List.replicate fuel T ∧
      (runLoop env fuel i (T :: rest)).2 = false := by
  intro fuel
  induction fuel with
  | zero => intro i rest; simp [runLoop, invokedIds]
  | succ f ih =>
    intro i rest
    have hrec := ih (i + 1) rest
    simp only [runLoop, stopped_none hstop, Bool.false_eq_true, if_false,
      hexec i, if_true, List.replicate_succ]
    constructor
    · rw [invokedIds_invoke, invokedIds_redirectWait, hrec.1]
    · exact hrec.2

/-- Every iteration on a non-empty queue that passes the loop-head stop
check begins by invoking the head task. -/
theorem runLoop_cons_head (env : QueueEnv) (hstop : env.stopTime = none)
    (fuel i : Nat) (c : String) (rest : List String) :
    ∃ tl, (runLoop env (fuel + 1) i (c :: rest)).1 = QEv.invoke i c :: tl := by
  simp only [runLoop, stopped_none hstop, Bool.false_eq_true, if_false]
  repeat'
    first
    | exact ⟨_, rfl⟩
    | split

/-- C3: when an execution of the head task `T` returns the
redirect-required outcome, the scheduler navigates the target tab to the
given URL and marks the task `pending` (no result written), the queue
loop waits the fixed 3000 ms settle delay and retries the same task
without removing it from the queue, and if every attempt returns
redirect-required the queue never advances past `T` (only `T` is ever
invoked and the loop never exits on its own).  The theorem holds for an
arbitrary `retryOnFail` toggle: redirect retries never take the
retry-on-failure branch. -/
theorem redirect_retries_same_task (env : QueueEnv) (xenv : ExecEnv)
    (i fuel : Nat) (T : String) (rest : List String) (task : Task)
    (resp : ExecResponse) (u : String)
    (hstop : env.stopTime = none)
    (hexec : ∀ j, env.exec j T = { success := false, retryAfterRedirect := true })
    (himg : xenv.imageLoad = Except.ok ())
    (hch : xenv.channel = Except.ok (some resp))
    (hsucc : resp.success = false)
    (hred : resp.redirectUrl = some u) :
    executeTask xenv true (some task) false =
      ([ExecEv.updateTask { status := some TaskStatus.in_progress },
        ExecEv.sendExecuteMessage,
        ExecEv.navigate u,
        ExecEv.updateTask { status := some TaskStatus.pending },
        ExecEv.ret { success := false, retryAfterRedirect := true }],
       { success := false, retryAfterRedirect := true }) ∧
    runLoop env (fuel + 1) i (T :: rest) =
      (QEv.invoke i T :: QEv.redirectWait 3000 ::
         (runLoop env fuel (i + 1) (T :: rest)).1,
       (runLoop env fuel (i + 1) (T :: rest)).2) ∧
    invokedIds (runLoop env fuel i (T :: rest)).1 = List.replicate fuel T ∧
    (runLoop env fuel i (T :: rest)).2 = false := by
  refine ⟨?_, ?_, runLoop_redirect_forever env T hstop hexec fuel i rest⟩
  · simp [executeTask, himg, hch, hsucc, hred]
  · simp [runLoop, stopped_none hstop, hexec i]

/-- Witness for C3 with a single-task queue whose execution always
redirects to a fixed URL. -/
theorem redirect_retries_same_task_witness :
    executeTask redirectExecEnv true (some sampleTask) false =
      ([ExecEv.updateTask { status := some TaskStatus.in_progress },
        ExecEv.sendExecuteMessage,
        ExecEv.navigate jimengImageUrl,
        ExecEv.updateTask { status := some TaskStatus.pending },
        ExecEv.ret { success := false, retryAfterRedirect := true }],
       { success := false, retryAfterRedirect := true }) ∧
    runLoop redirectQueueEnv (4 + 1) 0 ["t1"] =
      (QEv.invoke 0 "t1" :: QEv.redirectWait 3000 ::
         (runLoop redirectQueueEnv 4 1 ["t1"]).1,
       (runLoop redirectQueueEnv 4 1 ["t1"]).2) ∧
    invokedIds (runLoop redirectQueueEnv 4 0 ["t1"]).1 = List.replicate 4 "t1" ∧
    (runLoop redirectQueueEnv 4 0 ["t1"]).2 = false :=
  redirect_retries_same_task redirectQueueEnv redirectExecEnv
    0 4 "t1" [] sampleTask redirectResp jimengImageUrl
    rfl (fun _ => rfl) rfl rfl rfl rfl

/-- Function `randomDelay()` always waits between 1000 and 3999 ms. -/
theorem randomDelayMs_bounds (d : Nat) :
    1000 ≤ randomDelayMs d ∧ randomDelayMs d < 4000 := by
  unfold randomDelayMs
  have := Nat.mod_lt d (show 0 < 3000 by decide)
  omega

/-- C4: when the head task `T` fails while retry-on-failure is enabled
and no stop is requested, the loop pushes `T` back onto the front of the
queue and waits the randomized 1-4 second delay before continuing, so
`T` is invoked at least twice consecutively before the queue can advance
past it. -/
theorem failure_retry_refronts_task (env : QueueEnv)
    (i fuel : Nat) (T : String) (rest : List String)
    (hstop : env.stopTime = none)
    (hfail : env.exec i T = { success := false, retryAfterRedirect := false })
    (hretry : env.retryOnFail i = true) :
    runLoop env (fuel + 1) i (T :: rest) =
      (QEv.invoke i T :: QEv.retryDelay (randomDelayMs (env.rand i)) ::
         (runLoop env fuel (i + 1) (T :: rest)).1,
       (runLoop env fuel (i + 1) (T :: rest)).2) ∧
    [T, T] <+: invokedIds (runLoop env (fuel + 2) i (T :: rest)).1 ∧
    1000 ≤ randomDelayMs (env.rand i) ∧ randomDelayMs (env.rand i) < 4000 := by
  have hstep : ∀ f, runLoop env (f + 1) i (T :: rest) =
      (QEv.invoke i T :: QEv.retryDelay (randomDelayMs (env.rand i)) ::
         (runLoop env f (i + 1) (T :: rest)).1,
       (runLoop env f (i + 1) (T :: rest)).2) := by
    intro f
    simp [runLoop, stopped_none hstop, hfail, hretry]
  refine ⟨hstep fuel, ?_, randomDelayMs_bounds (env.rand i)⟩
  obtain ⟨tl, htl⟩ := runLoop_cons_head env hstop fuel (i + 1) T rest
  have h2 : runLoop env (fuel + 1 + 1) i (T :: rest) =
      (QEv.invoke i T :: QEv.retryDelay (randomDelayMs (env.rand i)) ::
         (runLoop env (fuel + 1) (i + 1) (T :: rest)).1,
       (runLoop env (fuel + 1) (i + 1) (T :: rest)).2) := hstep (fuel + 1)
  rw [show fuel + 2 = fuel + 1 + 1 from rfl, h2]
  rw [invokedIds_invoke, invokedIds_retryDelay, htl, invokedIds_invoke]
  exact ⟨invokedIds tl, rfl⟩

/-- Witness for C4 with a single always-failing task and retry-on-fail
enabled. -/
theorem failure_retry_refronts_task_witness :
    runLoop ⟨fun _ _ => { success := false, retryAfterRedirect := false },
             fun _ => true, fun _ => true, fun _ => 500, none⟩
        (3 + 1) 0 ["t1"] =
      (QEv.invoke 0 "t1" :: QEv.retryDelay (randomDelayMs 500) ::
         (runLoop ⟨fun _ _ => { success := false, retryAfterRedirect := false },
                   fun _ => true, fun _ => true, fun _ => 500, none⟩ 3 1 ["t1"]).1,
       (runLoop ⟨fun _ _ => { success := false, retryAfterRedirect := false },
                 fun _ => true, fun _ => true, fun _ => 500, none⟩ 3 1 ["t1"]).2) ∧
    ["t1", "t1"] <+: invokedIds
      (runLoop ⟨fun _ _ => { success := false, retryAfterRedirect := false },
                fun _ => true, fun _ => true, fun _ => 500, none⟩
        (3 + 2) 0 ["t1"]).1 ∧
    1000 ≤ randomDelayMs 500 ∧ randomDelayMs 500 < 4000 :=
  failure_retry_refronts_task
    ⟨fun _ _ => { success := false, retryAfterRedirect := false },
     fun _ => true, fun _ => true, fun _ => 500, none⟩
    0 3 "t1" [] rfl rfl rfl

/-! ## The `EXECUTE_PROMPT` step sequence -/

/-- When no step after the pre-flight validation throws, the handler
runs exactly the gated step sequence and replies success with
`getLatestResult`'s payload. -/
theorem handleAfterValidate_allOk (a : AdapterB) (images : List String)
    (task? : Option Task) (r : Option String)
    (hce : ∀ x, a.clearEditor = some x → x = Except.ok ())
    (hfi : ∀ x, a.fillImages = some x → x = Except.ok ())
    (hfp : a.fillPrompt = Except.ok ())
    (hcs : a.clickSend = Except.ok ())
    (hwc : a.waitForCompletion = Except.ok ())
    (hglr : a.getLatestResult = Except.ok r) :
    handleAfterValidate a images task? =
      ((if a.clearEditor.isSome then [Step.clearEditor] else []) ++
       (if !images.isEmpty && a.fillImages.isSome then [Step.fillImages] else []) ++
       [Step.fillPrompt, Step.clickSend, Step.settleDelay 2000,
        Step.waitForCompletion,
        Step.getLatestResult (task?.map (·.resultType))],
       { success := true, result := r }) := by
  cases hc : a.clearEditor with
  | none =>
    cases hf : a.fillImages with
    | none => simp [handleAfterValidate, seqSteps, hc, hf, hfp, hcs, hwc, hglr]
    | some x =>
      have hx := hfi x hf
      subst hx
      cases hb : images.isEmpty <;>
        simp [handleAfterValidate, seqSteps, hc, hf, hb, hfp, hcs, hwc, hglr]
  | some y =>
    have hy := hce y hc
    subst hy
    cases hf : a.fillImages with
    | none => simp [handleAfterValidate, seqSteps, hc, hf, hfp, hcs, hwc, hglr]
    | some x =>
      have hx := hfi x hf
      subst hx
      cases hb : images.isEmpty <;>
        simp [handleAfterValidate, seqSteps, hc, hf, hb, hfp, hcs, hwc, hglr]

/-- C2: for an `EXECUTE_PROMPT` request with a task supplied, when the
provided adapter steps all succeed (and validation, if provided,
passes), the capabilities run in exactly this order: `validateState`
(when provided), `clearEditor` (when provided), `fillImages` (exactly
when the request carries at least one image and the adapter supports
it), `fillPrompt`, `clickSend`, the fixed 2000 ms settle delay,
`waitForCompletion`, then `getLatestResult` with the task's expected
result type — and the response reports success carrying
`getLatestResult`'s payload. -/
theorem execute_prompt_step_order (a : AdapterB) (images : List String)
    (t : Task) (r : Option String)
    (hval : ∀ vr, a.validateState = some vr →
      ∃ s : ValState, vr = Except.ok s ∧ s.valid = true)
    (hce : ∀ x, a.clearEditor = some x → x = Except.ok ())
    (hfi : ∀ x, a.fillImages = some x → x = Except.ok ())
    (hfp : a.fillPrompt = Except.ok ())
    (hcs : a.clickSend = Except.ok ())
    (hwc : a.waitForCompletion = Except.ok ())
    (hglr : a.getLatestResult = Except.ok r) :
    handleExecute a images (some t) =
      ((if a.validateState.isSome then [Step.validateState] else []) ++
       (if a.clearEditor.isSome then [Step.clearEditor] else []) ++
       (if !images.isEmpty && a.fillImages.isSome then [Step.fillImages] else []) ++
       [Step.fillPrompt, Step.clickSend, Step.settleDelay 2000,
        Step.waitForCompletion, Step.getLatestResult (some t.resultType)],
       { success := true, result := r }) := by
  have hrest := handleAfterValidate_allOk a images (some t) r hce hfi hfp hcs hwc hglr
  cases hv : a.validateState with
  | none =>
    simp only [handleExecute, hv, hrest, Option.isSome_none, Bool.false_eq_true,
      if_false, List.nil_append]
    simp
  | some vr =>
    obtain ⟨s, hvr, hvalid⟩ := hval vr hv
    subst hvr
    simp only [handleExecute, hv, hvalid, if_true, hrest, Option.isSome_some,
      if_true, List.singleton_append]
    simp

/-- Witness for C2: the full adapter on a one-image request. -/
theorem execute_prompt_step_order_witness :
    handleExecute fullAdapter ["img1"] (some sampleTask) =
      ((if fullAdapter.validateState.isSome then [Step.validateState] else []) ++
       (if fullAdapter.clearEditor.isSome then [Step.clearEditor] else []) ++
       (if !(["img1"] : List String).isEmpty && fullAdapter.fillImages.isSome then
          [Step.fillImages] else []) ++
       [Step.fillPrompt, Step.clickSend, Step.settleDelay 2000,
        Step.waitForCompletion, Step.getLatestResult (some sampleTask.resultType)],
       { success := true, result := some "res" }) :=
  execute_prompt_step_order fullAdapter ["img1"] sampleTask (some "res")
    (fun vr hvr => ⟨{ valid := true }, by simpa [fullAdapter] using hvr.symm, rfl⟩)
    (fun x hx => by simpa [fullAdapter] using hx.symm)
    (fun x hx => by simpa [fullAdapter] using hx.symm)
    rfl rfl rfl rfl

/-! ## `waitForCompletion` termination -/

/-- A deadline-carrying polling loop always resolves by the deadline
tick: if the loop is at tick `n ≤ d` with more than `d - n` ticks of
fuel, it resolves at some tick `t ≤ d`, whatever the page does. -/
theorem pollLoop_deadline_bounded (busy : Nat → Bool) (d : Nat) :
    ∀ fuel n, n ≤ d → d < n + fuel →
      ∃ t, pollLoop busy (some d) fuel n = some t ∧ t ≤ d := by
  intro fuel
  induction fuel with
  | zero => intro n h1 h2; omega
  | succ f ih =>
    intro n h1 _
    by_cases hd : d ≤ n
    · exact ⟨n, by simp [pollLoop, hd], hd.antisymm h1 ▸ le_rfl⟩
    · by_cases hb : busy n = true
      · have h3 : n + 1 ≤ d := by omega
        have h4 : d < (n + 1) + f := by omega
        obtain ⟨t, ht, htd⟩ := ih (n + 1) h3 h4
        exact ⟨t, by simp [pollLoop, hd, hb, ht], htd⟩
      · refine ⟨n, ?_, by omega⟩
        simp [pollLoop, hd, Bool.not_eq_true] at hb ⊢
        simp [hb]

/-- A polling loop with no deadline never resolves while the page stays
busy. -/
theorem pollLoop_no_deadline_busy_forever :
    ∀ fuel n, pollLoop (fun _ => true) none fuel n = none := by
  intro fuel
  induction fuel with
  | zero => intro n; rfl
  | succ f ih => intro n; simp [pollLoop, ih]

/-- C7 (amended): the ChatGPT adapter's `waitForCompletion` resolves
within its 120 000 ms safety timeout (120 one-second poll ticks) and the
Jimeng adapter's within its 180 000 ms safety timeout (90 two-second
poll ticks), for every behaviour of the page's busy indicators — both
resolve normally, i.e. as if generation completed.  (The Gemini adapter
is excluded: see the counterexample.) -/
theorem chatgpt_jimeng_wait_bounded :
    (∀ busy : Nat → Bool, ∃ t, chatgptWaitTick busy 121 = some t ∧ t ≤ 120) ∧
    (∀ busy : Nat → Bool, ∃ t, jimengWaitTick busy 91 = some t ∧ t ≤ 90) := by
  constructor
  · intro busy
    exact pollLoop_deadline_bounded busy 120 121 0 (by omega) (by omega)
  · intro busy
    exact pollLoop_deadline_bounded busy 90 91 0 (by omega) (by omega)

/-- C7 counterexample: the claim "for every adapter, `waitForCompletion`
is bounded by a safety timeout … it cannot poll forever" is false for
the Gemini adapter: when the page's generation-in-progress indicators
never clear, its polling loop (which has no safety timeout) never
resolves, no matter how many ticks elapse. -/
theorem gemini_wait_unbounded :
    ¬ ∃ fuel t, geminiWaitTick (fun _ => true) fuel = some t := by
  rintro ⟨fuel, t, h⟩
  rw [geminiWaitTick, pollLoop_no_deadline_busy_forever fuel 0] at h
  cases h

/-! ## Outcome handling of the sidepanel `executeTask` -/

/-- C8: for every execution of a task — (i) on a success outcome (not
fill-only) exactly one new `TaskResult` is appended to the task's
existing results list (its content is the reply's payload, `''` when
absent) and the status is set to `completed`; (ii) on a connectivity
error (the channel throws) the status is set to `failed` and no result
is written; (iii) on an adapter-level failure response the status is set
to `failed` and no result is written; (iv) on a redirect-required
response the status is set to `pending` and no result is written. -/
theorem outcome_status_and_results :
    (∀ (env : ExecEnv) (task : Task) (resp : ExecResponse),
      env.imageLoad = Except.ok () →
      env.channel = Except.ok (some resp) →
      resp.success = true →
      finalStatus (executeTask env true (some task) false).1 =
          some TaskStatus.completed ∧
      (∃ r : TaskResult,
        finalResults (executeTask env true (some task) false).1 =
            some (task.results ++ [r]) ∧
        r.content = resp.result.getD "") ∧
      (executeTask env true (some task) false).2 =
          { success := true, retryAfterRedirect := false }) ∧
    (∀ (env : ExecEnv) (task : Task) (e : String),
      env.imageLoad = Except.ok () →
      env.channel = Except.error e →
      finalStatus (executeTask env true (some task) false).1 =
          some TaskStatus.failed ∧
      writesResults (executeTask env true (some task) false).1 = false ∧
      (executeTask env true (some task) false).2 =
          { success := false, retryAfterRedirect := false }) ∧
    (∀ (env : ExecEnv) (task : Task) (resp : ExecResponse),
      env.imageLoad = Except.ok () →
      env.channel = Except.ok (some resp) →
      resp.success = false →
      resp.redirectUrl = none →
      finalStatus (executeTask env true (some task) false).1 =
          some TaskStatus.failed ∧
      writesResults (executeTask env true (some task) false).1 = false ∧
      (executeTask env true (some task) false).2 =
          { success := false, retryAfterRedirect := false }) ∧
    (∀ (env : ExecEnv) (task : Task) (resp : ExecResponse) (u : String),
      env.imageLoad = Except.ok () →
      env.channel = Except.ok (some resp) →
      resp.success = false →
      resp.redirectUrl = some u →
      finalStatus (executeTask env true (some task) false).1 =
          some TaskStatus.pending ∧
      writesResults (executeTask env true (some task) false).1 = false ∧
      (executeTask env true (some task) false).2 =
          { success := false, retryAfterRedirect := true }) := by
  refine ⟨?_, ?_, ?_, ?_⟩
  · intro env task resp h1 h2 h3
    simp only [executeTask, h1, h2, h3, Bool.not_true, Bool.false_eq_true,
      if_false, if_true]
    by_cases hm : (mediaUrlsOf (env.parse (resp.result.getD "\x7b\x7d"))).isEmpty
    · simp [hm, finalStatus, finalResults]
    · by_cases hc : (cacheMediaUrls env.fetchOk
          (mediaUrlsOf (env.parse (resp.result.getD "\x7b\x7d")))).isEmpty
      · simp [hm, hc, finalStatus, finalResults]
      · simp [hm, hc, finalStatus, finalResults]
  · intro env task e h1 h2
    simp [executeTask, h1, h2, execCatch, finalStatus, writesResults]
  · intro env task resp h1 h2 h3 h4
    simp [executeTask, h1, h2, h3, h4, execCatch, finalStatus, writesResults]
  · intro env task resp u h1 h2 h3 h4
    simp [executeTask, h1, h2, h3, h4, finalStatus, writesResults]

/-- Witness for C8: each of the four outcomes at a concrete
environment. -/
theorem outcome_status_and_results_witness :
    (finalStatus (executeTask successExecEnv true (some sampleTask) false).1 =
        some TaskStatus.completed ∧
      (∃ r : TaskResult,
        finalResults (executeTask successExecEnv true (some sampleTask) false).1 =
            some (sampleTask.results ++ [r]) ∧
        r.content = successResp.result.getD "") ∧
      (executeTask successExecEnv true (some sampleTask) false).2 =
          { success := true, retryAfterRedirect := false }) ∧
    (finalStatus (executeTask connErrorEnv true (some sampleTask) false).1 =
        some TaskStatus.failed ∧
      writesResults (executeTask connErrorEnv true (some sampleTask) false).1 = false ∧
      (executeTask connErrorEnv true (some sampleTask) false).2 =
          { success := false, retryAfterRedirect := false }) ∧
    (finalStatus (executeTask failRespEnv true (some sampleTask) false).1 =
        some TaskStatus.failed ∧
      writesResults (executeTask failRespEnv true (some sampleTask) false).1 = false ∧
      (executeTask failRespEnv true (some sampleTask) false).2 =
          { success := false, retryAfterRedirect := false }) ∧
    (finalStatus (executeTask redirectExecEnv true (some sampleTask) false).1 =
        some TaskStatus.pending ∧
      writesResults (executeTask redirectExecEnv true (some sampleTask) false).1 = false ∧
      (executeTask redirectExecEnv true (some sampleTask) false).2 =
          { success := false, retryAfterRedirect := true }) :=
  ⟨outcome_status_and_results.1 successExecEnv sampleTask successResp rfl rfl rfl,
   outcome_status_and_results.2.1 connErrorEnv sampleTask
     "Could not establish connection" rfl rfl,
   outcome_status_and_results.2.2.1 failRespEnv sampleTask failResp rfl rfl rfl rfl,
   outcome_status_and_results.2.2.2 redirectExecEnv sampleTask redirectResp
     jimengImageUrl rfl rfl rfl rfl⟩

/-! ## Media caching and the `stop` cancellation signal -/

/-- C9, evaluated at the failing input: a success whose result carries
two remote image URLs, one reachable and one not.  The `cacheFetch`
effect is awaited inside `executeTask` *before* the `ret` event — the
function does not return (and hence the scheduler cannot start the next
task) until the media caching has finished, contradicting the claimed
decoupling.  The parts of the claim that do hold are also exhibited: the
unreachable URL is skipped, only the succeeded handle is written back to
the `TaskResult`, and the partial failure leaves the task's `completed`
status untouched. -/
theorem cache_awaited_before_return :
    executeTask cacheTestEnv true (some sampleTask) false =
      ([ExecEv.updateTask { status := some TaskStatus.in_progress },
        ExecEv.sendExecuteMessage,
        ExecEv.updateTask
          { results := some [{ id := "7", content := "res-json", createdAt := 7 }],
            status := some TaskStatus.completed },
        ExecEv.cacheFetch
          [("https://x/a.png", MediaType.image),
           ("https://x/b.png", MediaType.image)],
        ExecEv.updateTask
          { results := some [{ id := "7", content := "res-json", createdAt := 7,
                               cachedMediaIds := some ["m1"] }] },
        ExecEv.ret { success := true }],
       { success := true }) ∧
    cacheMediaUrls cacheTestFetch
        [("https://x/a.png", MediaType.image),
         ("https://x/b.png", MediaType.image)] =
      [("https://x/a.png", "m1")] ∧
    finalStatus (executeTask cacheTestEnv true (some sampleTask) false).1 =
      some TaskStatus.completed := by
  refine ⟨?_, ?_, ?_⟩ <;> decide

/-- C10: when the adapter's steps succeed, `waitForCompletion` resolves
and `getLatestResult` finds no artifact (`null`), the handler still
replies success with a null result, and the scheduler appends a
`TaskResult` whose content is the empty string and marks the task
`completed` — an absent artifact is never surfaced as a failure. -/
theorem null_result_still_success (a : AdapterB) (images : List String)
    (t : Task) (env : ExecEnv)
    (hval : ∀ vr, a.validateState = some vr →
      ∃ s : ValState, vr = Except.ok s ∧ s.valid = true)
    (hce : ∀ x, a.clearEditor = some x → x = Except.ok ())
    (hfi : ∀ x, a.fillImages = some x → x = Except.ok ())
    (hfp : a.fillPrompt = Except.ok ())
    (hcs : a.clickSend = Except.ok ())
    (hwc : a.waitForCompletion = Except.ok ())
    (hglr : a.getLatestResult = Except.ok none)
    (himg : env.imageLoad = Except.ok ())
    (hch : env.channel = Except.ok (some { success := true }))
    (hparse : (mediaUrlsOf (env.parse "\x7b\x7d")).isEmpty = true) :
    (handleExecute a images (some t)).2 = { success := true, result := none } ∧
    executeTask env true (some t) false =
      ([ExecEv.updateTask { status := some TaskStatus.in_progress },
        ExecEv.sendExecuteMessage,
        ExecEv.updateTask
          { results := some (t.results ++
              [{ id := toString env.now, content := "", createdAt := env.now }]),
            status := some TaskStatus.completed },
        ExecEv.ret { success := true }],
       { success := true }) := by
  constructor
  · have h := handleAfterValidate_allOk a images (some t) none hce hfi hfp hcs hwc hglr
    cases hv : a.validateState with
    | none => simp [handleExecute, hv, h]
    | some vr =>
      obtain ⟨s, hvr, hvalid⟩ := hval vr hv
      subst hvr
      simp [handleExecute, hv, hvalid, h]
  · simp [executeTask, himg, hch, hparse]

/-- Witness for C10: the full adapter with no artifact on the page, and
a success reply carrying a null result. -/
theorem null_result_still_success_witness :
    (handleExecute nullAdapter ["img1"] (some sampleTask)).2 =
      { success := true, result := none } ∧
    executeTask nullRespEnv true (some sampleTask) false =
      ([ExecEv.updateTask { status := some TaskStatus.in_progress },
        ExecEv.sendExecuteMessage,
        ExecEv.updateTask
          { results := some (sampleTask.results ++
              [{ id := toString nullRespEnv.now, content := "",
                 createdAt := nullRespEnv.now }]),
            status := some TaskStatus.completed },
        ExecEv.ret { success := true }],
       { success := true }) :=
  null_result_still_success nullAdapter ["img1"] sampleTask nullRespEnv
    (fun vr hvr => ⟨{ valid := true }, by
      simpa [nullAdapter, fullAdapter] using hvr.symm, rfl⟩)
    (fun x hx => by simpa [nullAdapter, fullAdapter] using hx.symm)
    (fun x hx => by simpa [nullAdapter, fullAdapter] using hx.symm)
    rfl rfl rfl rfl rfl rfl rfl

/-- C6, evaluated on the code: `stop()` does set the stop flag, clear
the queued ids, and emit the `CANCEL_EXECUTION` message via `onStop`;
but the content-script listener has no branch for that message type —
its dispatch yields no action for `CANCEL_EXECUTION` (while it does
dispatch `EXECUTE_PROMPT`), so the presently executing task is never
aborted and runs to completion. -/
theorem stop_emits_cancel_but_listener_ignores_it :
    stopActions true =
      [StopAction.setStoppedFlag, StopAction.clearQueuedIds,
       StopAction.sendCancelMessage] ∧
    (∀ hasPayload : Bool,
      listenerDispatch MessageType.cancelExecution hasPayload = none) ∧
    listenerDispatch MessageType.executePrompt true = some HandlerKind.execute := by
  decide

end Genmix
